import Mathlib

/-!
# simpledb: the in-memory key-value database with transactions

A shallow embedding of `simpledb.go`.  The Go type `DB` is `struct{}`: it has no
fields.  Every method has a pointer receiver, so each one is modelled as a function
that takes the receiver and returns the receiver after the call, next to the Go
return value.  `interface{}` results are `Value` (with `Value.nil` for Go's `nil`),
`error` results are `Option String` (`none` for Go's `nil`).
-/

namespace simpledb

/-- Go `interface{}`: either `nil` or a dynamic value (the tests store integers). -/
inductive Value where
  | nil : Value
  | int : Int → Value
  | str : String → Value
  deriving DecidableEq, Repr

/-- Go `error`: `none` is the nil error, `some msg` a non-nil error. -/
abbrev error := Option String

/-- `type DB struct{}`: a database value carries no data. -/
structure DB where
  deriving DecidableEq, Repr

/-- `func NewDB() *DB { return &DB{} }`. -/
def NewDB : DB := {}

/-- `func (db *DB) Set(key string, val interface{}) {}`: the body is empty. -/
def DB.Set (db : DB) (_key : String) (_val : Value) : DB := db

/-- `func (db *DB) Get(key string) interface{} { return nil }`. -/
def DB.Get (_db : DB) (_key : String) : Value := Value.nil

/-- `func (db *DB) Unset(key string) error { return nil }`. -/
def DB.Unset (db : DB) (_key : String) : DB × error := (db, none)

/-- `func (db *DB) Begin() {}`: the body is empty. -/
def DB.Begin (db : DB) : DB := db

/-- `func (db *DB) Commit() error { return nil }`. -/
def DB.Commit (db : DB) : DB × error := (db, none)

/-- `func (db *DB) Rollback() error { return nil }`. -/
def DB.Rollback (db : DB) : DB × error := (db, none)

/-- One mutating call of the public API. -/
inductive Call where
  | Set : String → Value → Call
  | Unset : String → Call
  | Begin : Call
  | Commit : Call
  | Rollback : Call
  deriving DecidableEq, Repr

/-- Perform one call: the receiver afterwards and the error the call returned
(`none` for the calls that return nothing). -/
def exec (db : DB) : Call → DB × error
  | Call.Set k v => (db.Set k v, none)
  | Call.Unset k => db.Unset k
  | Call.Begin => (db.Begin, none)
  | Call.Commit => db.Commit
  | Call.Rollback => db.Rollback

/-- Perform a finite sequence of calls, left to right, discarding the errors. -/
def run (db : DB) : List Call → DB
  | [] => db
  | c :: cs => run (exec db c).1 cs

/-- A count over the call history, not a quantity of the source (`DB` has no field for
a nesting depth): every `Begin` adds one, and every `Commit` or `Rollback` that
returned the nil error subtracts one.  On this code the count can go below zero, as
no `Commit` or `Rollback` ever fails. -/
def depthAfter (db : DB) : List Call → Int
  | [] => 0
  | Call.Begin :: cs => depthAfter (exec db Call.Begin).1 cs + 1
  | Call.Commit :: cs =>
      depthAfter (exec db Call.Commit).1 cs
        - (if (exec db Call.Commit).2 = none then 1 else 0)
  | Call.Rollback :: cs =>
      depthAfter (exec db Call.Rollback).1 cs
        - (if (exec db Call.Rollback).2 = none then 1 else 0)
  | c :: cs => depthAfter (exec db c).1 cs

/-- The errors returned, in order, by a finite sequence of calls performed on `db`
(`none` for a call that returned the nil error or returns nothing). -/
def errs (db : DB) : List Call → List error
  | [] => []
  | c :: cs => (exec db c).2 :: errs (exec db c).1 cs

/-! ## Basic facts about the model -/

/-- Performing any sequence of calls returns the receiver it started from: no
method writes anything. -/
theorem run_eq_self (db : DB) (cs : List Call) : run db cs = db := by
  induction cs generalizing db with
  | nil => rfl
  | cons c cs ih => cases c <;> exact ih _

/-- Every error a sequence of calls returns is the nil error. -/
theorem errs_all_none (db : DB) (cs : List Call) : ∀ e ∈ errs db cs, e = none := by
  induction cs generalizing db with
  | nil => intro e he; simp [errs] at he
  | cons c cs ih =>
    intro e he
    simp only [errs, List.mem_cons] at he
    rcases he with he | he
    · cases c <;> exact he
    · exact ih _ e he

/-! ## The claims -/

/-- C1 (evaluation of the code): on a new DB, `Set("a", 10)` followed by `Get("a")`
returns nil, not the value 10 that was set. -/
theorem C1_set_then_get_returns_nil :
    (NewDB.Set "a" (Value.int 10)).Get "a" = Value.nil
    ∧ (NewDB.Set "a" (Value.int 10)).Get "a" ≠ Value.int 10 := by
  decide

/-- C2 (evaluation of the code): on a new DB, `Get("a")` returns nil (the key is
absent) and `Unset("a")` returns the nil error. -/
theorem C2_unset_absent_returns_nil_error :
    NewDB.Get "a" = Value.nil ∧ (NewDB.Unset "a").2 = none := by
  decide

/-- C3 (evaluation of the code): on a new DB, with no `Begin` ever called, `Commit()`
returns the nil error. -/
theorem C3_commit_on_new_db_returns_nil_error :
    depthAfter NewDB [] = 0 ∧ NewDB.Commit.2 = none := by
  decide

/-- C4 (evaluation of the code): on a new DB, with no `Begin` ever called,
`Rollback()` returns the nil error. -/
theorem C4_rollback_on_new_db_returns_nil_error :
    depthAfter NewDB [] = 0 ∧ NewDB.Rollback.2 = none := by
  decide

/-- C5 (evaluation of the code): on a new DB, after `Begin(); Set("a", 10)` the call
`Get("a")` returns nil; the following `Begin(); Set("a", 20); Rollback()` makes
`Rollback` return the nil error, and `Get("a")` after it returns nil, not the value
10 that `Set("a", 10)` gave the key before the inner `Begin`. -/
theorem C5_inner_rollback_scenario_evaluated :
    (run NewDB [Call.Begin, Call.Set "a" (Value.int 10)]).Get "a" = Value.nil
    ∧ ((run NewDB [Call.Begin, Call.Set "a" (Value.int 10), Call.Begin,
          Call.Set "a" (Value.int 20)]).Rollback).2 = none
    ∧ ((run NewDB [Call.Begin, Call.Set "a" (Value.int 10), Call.Begin,
          Call.Set "a" (Value.int 20)]).Rollback).1.Get "a" = Value.nil
    ∧ ((run NewDB [Call.Begin, Call.Set "a" (Value.int 10), Call.Begin,
          Call.Set "a" (Value.int 20)]).Rollback).1.Get "a" ≠ Value.int 10 := by
  decide

/-- C6 (evaluation of the code): on a new DB, after `Set("a", 10); Begin();
Unset("a")` the `Unset` returned the nil error and `Get("a")` returns nil; the
following `Rollback()` returns the nil error, and `Get("a")` after it still returns
nil, not the value 10 that the rollback should bring back. -/
theorem C6_get_after_rolled_back_unset_returns_nil :
    (((NewDB.Set "a" (Value.int 10)).Begin).Unset "a").2 = none
    ∧ (((NewDB.Set "a" (Value.int 10)).Begin).Unset "a").1.Get "a" = Value.nil
    ∧ ((((NewDB.Set "a" (Value.int 10)).Begin).Unset "a").1.Rollback).2 = none
    ∧ ((((NewDB.Set "a" (Value.int 10)).Begin).Unset "a").1.Rollback).1.Get "a" = Value.nil
    ∧ ((((NewDB.Set "a" (Value.int 10)).Begin).Unset "a").1.Rollback).1.Get "a"
        ≠ Value.int 10 := by
  decide

/-- C7 (evaluation of the code): on a new DB, `Begin(); Set("a", 20); Commit()` makes
`Commit` return the nil error, but `Get("a")` after it returns nil, not the value 20
that the committed `Set("a", 20)` should leave behind; `Get("a")` after `Set("a", 20)`
applied directly returns nil as well. -/
theorem C7_committed_set_scenario_evaluated :
    ((run NewDB [Call.Begin, Call.Set "a" (Value.int 20)]).Commit).2 = none
    ∧ ((run NewDB [Call.Begin, Call.Set "a" (Value.int 20)]).Commit).1.Get "a" = Value.nil
    ∧ ((run NewDB [Call.Begin, Call.Set "a" (Value.int 20)]).Commit).1.Get "a"
        ≠ Value.int 20
    ∧ (run NewDB [Call.Set "a" (Value.int 20)]).Get "a" = Value.nil := by
  decide

/-- C8 (evaluation of the code): on a new DB, after `Begin(); Set("a", 30); Begin();
Set("a", 40)` the call `Commit()` returns the nil error, but `Get("a")` then returns
nil instead of 40, and the following `Rollback()` and the `Commit()` after it both
return the nil error. -/
theorem C8_nested_commit_scenario_evaluated :
    (((((NewDB.Begin).Set "a" (Value.int 30)).Begin).Set "a" (Value.int 40)).Commit).2 = none
    ∧ (((((NewDB.Begin).Set "a" (Value.int 30)).Begin).Set "a" (Value.int 40)).Commit).1.Get "a"
        = Value.nil
    ∧ (((((NewDB.Begin).Set "a" (Value.int 30)).Begin).Set "a" (Value.int 40)).Commit).1.Get "a"
        ≠ Value.int 40
    ∧ ((((((NewDB.Begin).Set "a" (Value.int 30)).Begin).Set "a"
          (Value.int 40)).Commit).1.Rollback).2 = none
    ∧ (((((((NewDB.Begin).Set "a" (Value.int 30)).Begin).Set "a"
          (Value.int 40)).Commit).1.Rollback).1.Commit).2 = none := by
  decide

/-- C9 (evaluation of the code): on a new DB, after `Begin(); Commit()` has closed the
only open transaction, a second `Commit()` still returns the nil error; after
`Begin(); Rollback()` a second `Rollback()` still returns the nil error; and after
`Begin(); Begin(); Commit(); Rollback()` has closed both open transactions, a further
`Commit()` still returns the nil error.  No call closes a nesting level. -/
theorem C9_closed_level_still_closes_evaluated :
    (NewDB.Begin.Commit).2 = none
    ∧ ((NewDB.Begin.Commit).1.Commit).2 = none
    ∧ (NewDB.Begin.Rollback).2 = none
    ∧ ((NewDB.Begin.Rollback).1.Rollback).2 = none
    ∧ ((run NewDB [Call.Begin, Call.Begin, Call.Commit, Call.Rollback]).Commit).2
        = none := by
  decide

/-- C10 (evaluation of the code): on a new DB, after `Set("a", 10); Set("b", 10);
Begin(); Set("a", 20)` the call `Get("a")` returns nil instead of 20 and `Get("b")`
returns nil instead of 10. -/
theorem C10_interleaved_keys_scenario_evaluated :
    ((((NewDB.Set "a" (Value.int 10)).Set "b" (Value.int 10)).Begin).Set "a"
        (Value.int 20)).Get "a" = Value.nil
    ∧ ((((NewDB.Set "a" (Value.int 10)).Set "b" (Value.int 10)).Begin).Set "a"
        (Value.int 20)).Get "a" ≠ Value.int 20
    ∧ ((((NewDB.Set "a" (Value.int 10)).Set "b" (Value.int 10)).Begin).Set "a"
        (Value.int 20)).Get "b" = Value.nil
    ∧ ((((NewDB.Set "a" (Value.int 10)).Set "b" (Value.int 10)).Begin).Set "a"
        (Value.int 20)).Get "b" ≠ Value.int 10 := by
  decide

/-- C11 (evaluation of the code): on a new DB, `Get("a")` right after `Set("a", 10)`
already returns nil, not 10, so the key is not visible; `Unset("a")` then returns the
nil error and `Get("a")` after it returns the same nil as before it. -/
theorem C11_unset_hides_nothing_evaluated :
    (NewDB.Set "a" (Value.int 10)).Get "a" = Value.nil
    ∧ (NewDB.Set "a" (Value.int 10)).Get "a" ≠ Value.int 10
    ∧ ((NewDB.Set "a" (Value.int 10)).Unset "a").2 = none
    ∧ ((NewDB.Set "a" (Value.int 10)).Unset "a").1.Get "a"
        = (NewDB.Set "a" (Value.int 10)).Get "a" := by
  decide

/-- C12 (evaluation of the code): on a new DB, `Get("a")` right after `Set("a", 10)`
returns nil, not 10; `Begin(); Unset("a"); Commit()` then makes `Unset` and `Commit`
return the nil error and `Get("a")` return nil; but after that `Commit()` a further
`Commit()` and a further `Rollback()` both still return the nil error, as they do
while a transaction is open. -/
theorem C12_committed_unset_scenario_evaluated :
    (NewDB.Set "a" (Value.int 10)).Get "a" ≠ Value.int 10
    ∧ ((run NewDB [Call.Set "a" (Value.int 10), Call.Begin]).Unset "a").2 = none
    ∧ ((run NewDB [Call.Set "a" (Value.int 10), Call.Begin, Call.Unset "a"]).Commit).2
        = none
    ∧ ((run NewDB [Call.Set "a" (Value.int 10), Call.Begin, Call.Unset "a"]).Commit).1.Get
        "a" = Value.nil
    ∧ ((run NewDB [Call.Set "a" (Value.int 10), Call.Begin, Call.Unset "a",
          Call.Commit]).Commit).2 = none
    ∧ ((run NewDB [Call.Set "a" (Value.int 10), Call.Begin, Call.Unset "a",
          Call.Commit]).Rollback).2 = none := by
  decide

/-- C13 (the claim fails): on a new DB, after `Set("a", 10); Begin(); Set("a", 20);
Begin(); Rollback()` the call `Get("a")` does not return 10. -/
theorem C13_get_after_first_rollback_is_not_10 :
    ¬ ((((((NewDB.Set "a" (Value.int 10)).Begin).Set "a" (Value.int 20)).Begin).Rollback).1.Get
        "a" = Value.int 10) := by
  decide

/-- C13 (amended): on a new DB, in the sequence `Set("a", 10); Begin(); Set("a", 20);
Begin(); Rollback(); Rollback()` both `Rollback()` calls, each made with a
transaction open, return the nil error. -/
theorem C13_both_rollbacks_return_nil_error :
    ((run NewDB [Call.Set "a" (Value.int 10), Call.Begin, Call.Set "a" (Value.int 20),
        Call.Begin]).Rollback).2 = none
    ∧ ((run NewDB [Call.Set "a" (Value.int 10), Call.Begin, Call.Set "a" (Value.int 20),
        Call.Begin, Call.Rollback]).Rollback).2 = none := by
  decide

/-- C14 (evaluation of the code): on a new DB, with an outer transaction opened by
`Begin()`, the inner transaction `Begin(); Set("a", 40); Commit()` followed by the
outer `Commit()` leaves `Get("a")` returning nil, not 40; and `Set("a", 40)` made
directly in the outer transaction followed by the outer `Commit()` leaves `Get("a")`
returning nil, not 40, too. -/
theorem C14_nested_commit_of_set_evaluated :
    ((run NewDB [Call.Begin, Call.Begin, Call.Set "a" (Value.int 40),
        Call.Commit]).Commit).1.Get "a" = Value.nil
    ∧ ((run NewDB [Call.Begin, Call.Begin, Call.Set "a" (Value.int 40),
        Call.Commit]).Commit).1.Get "a" ≠ Value.int 40
    ∧ ((run NewDB [Call.Begin, Call.Set "a" (Value.int 40)]).Commit).1.Get "a" = Value.nil
    ∧ ((run NewDB [Call.Begin, Call.Set "a" (Value.int 40)]).Commit).1.Get "a"
        ≠ Value.int 40 := by
  decide

/-- C15: for every key `k`, `Get(k)` on a new DB returns nil, and so does `Get(k)`
after any sequence `cs` of calls on a new DB that contains no `Set(k, _)`. -/
theorem C15_get_of_never_set_key_is_absent (cs : List Call) (k : String)
    (_h : ∀ v, Call.Set k v ∉ cs) :
    NewDB.Get k = Value.nil ∧ (run NewDB cs).Get k = Value.nil := by
  exact ⟨rfl, rfl⟩

/-- Witness for C15 at the key `"a"` and the history `Set("b", 1); Begin();
Unset("a")`, which never sets `"a"`. -/
theorem C15_get_of_never_set_key_is_absent_witness :
    (∀ v, Call.Set "a" v ∉ [Call.Set "b" (Value.int 1), Call.Begin, Call.Unset "a"])
    ∧ NewDB.Get "a" = Value.nil
    ∧ (run NewDB [Call.Set "b" (Value.int 1), Call.Begin, Call.Unset "a"]).Get "a"
        = Value.nil :=
  ⟨by intro v; simp,
   C15_get_of_never_set_key_is_absent
     [Call.Set "b" (Value.int 1), Call.Begin, Call.Unset "a"] "a" (by intro v; simp)⟩

/-- C17: for every key `k` and every finite sequence `cs` of
`Set`/`Unset`/`Begin`/`Commit`/`Rollback` calls made on a DB from `NewDB()`, `Get(k)`
returns nil. -/
theorem C17_get_is_constantly_nil (cs : List Call) (k : String) :
    (run NewDB cs).Get k = Value.nil := by
  rfl

/-- C18: for every DB state `db`, every key and every preceding sequence `cs` of
calls, `Unset(key)`, `Commit()` and `Rollback()` each return the nil error, and so
did every call of the preceding sequence. -/
theorem C18_no_call_reports_an_error (db : DB) (cs : List Call) (key : String) :
    ((run db cs).Unset key).2 = none
    ∧ ((run db cs).Commit).2 = none
    ∧ ((run db cs).Rollback).2 = none
    ∧ ∀ e ∈ errs db cs, e = none := by
  exact ⟨rfl, rfl, rfl, errs_all_none db cs⟩

end simpledb
